import Mathlib

/-!
Verification of the urlShortener backend against its specification.

JavaScript strings are embedded as `List Char`; databases as Lean lists;
`async` storage operations as explicit state passing, with a record of
per-step failure flags standing for promise rejections.  Machine
randomness (`nanoid`) and the platform URL parser are passed in as
oracle parameters, as the spec treats them as external collaborators.
-/

/-- JavaScript strings, embedded character by character. -/
abbrev JsStr := List Char

/-- Shorthand for turning a Lean string literal into a `JsStr`. -/
def js (s : String) : JsStr := s.data

/-- The whitespace characters removed by JavaScript's `String.prototype.trim`
(the common ASCII ones suffice for the URLs and headers modelled here). -/
def isJsWhitespace (c : Char) : Bool :=
  c = ' ' || c = '\t' || c = '\n' || c = '\r' || c = '\x0b' || c = '\x0c'

/-- `String.prototype.trim`: drop whitespace from both ends. -/
def jsTrim (s : JsStr) : JsStr :=
  ((s.dropWhile isJsWhitespace).reverse.dropWhile isJsWhitespace).reverse

/-- ASCII lowering, as performed by the `/i` regex flag on ASCII patterns. -/
def lowerChar (c : Char) : Char :=
  if 'A' ≤ c ∧ c ≤ 'Z' then Char.ofNat (c.toNat + 32) else c

/-- Lowercase a JavaScript string (ASCII part of `toLowerCase`). -/
def jsLower (s : JsStr) : JsStr := s.map lowerChar

/-- Substring containment: `pat` occurs somewhere in `s`
(JavaScript `String.prototype.includes` / an unanchored literal regex). -/
def containsSub (pat : JsStr) : JsStr → Bool
  | [] => pat.isPrefixOf ([] : JsStr)
  | c :: rest => pat.isPrefixOf (c :: rest) || containsSub pat rest

/-- Case-insensitive containment, as tested by an `/i` literal regex
whose pattern is already lowercase. -/
def containsCI (pat s : JsStr) : Bool := containsSub pat (jsLower s)

/-! ## src/backend/src/utils/short.js -/

/-- `normalizeUrl` from `src/backend/src/utils/short.js` (the variant in
`short1.js` is the same function): return a falsy (empty) input as-is,
trim, then prepend `https://` unless the string already starts with
`http://` or `https://` case-insensitively (regex `^https?:\/\//i`). -/
def normalizeUrl (url : JsStr) : JsStr :=
  if url = [] then url
  else
    let t := jsTrim url
    if (js "http://").isPrefixOf (jsLower t) || (js "https://").isPrefixOf (jsLower t) then t
    else js "https://" ++ t

/-- The retry loop of `generateShortCode` in `src/backend/src/utils/short.js`.
`gen j len` is the oracle for the code `nanoid` (with the `[_-]` characters
replaced from the base-62 alphabet) produces on the `j`-th generation at
length `len`; `registry` is the set of short codes already stored
(`Url.findOne({ shortCode })`).  The source loops
`while (!isUnique && attempts < maxAttempts)` with `maxAttempts = 10`;
here `fuel = 10 - attempts`, so `fuel = 0` is exactly `attempts = 10` and
the loop exits with the capacity error.  On a collision `attempts` is
incremented and, while the new `attempts` is still below 10, `length` is
incremented. -/
def generateShortCodeLoop (gen : Nat → Nat → JsStr) (registry : List JsStr) :
    (fuel : Nat) → (attempts length : Nat) → Except JsStr JsStr
  | 0, _, _ => Except.error (js "Unable to generate unique short code")
  | fuel + 1, attempts, length =>
    let shortCode := gen attempts length
    if shortCode ∈ registry then
      generateShortCodeLoop gen registry fuel (attempts + 1)
        (if attempts + 1 < 10 then length + 1 else length)
    else
      Except.ok shortCode

/-- `generateShortCode` from `src/backend/src/utils/short.js`:
default length 6, starting with zero collisions (`fuel = 10`). -/
def generateShortCode (gen : Nat → Nat → JsStr) (registry : List JsStr)
    (length : Nat := 6) : Except JsStr JsStr :=
  generateShortCodeLoop gen registry 10 0 length

/-- `generateShortCode` from `src/backend/src/utils/short1.js`: default
length 8, which never changes; the `do`-loop increments `attempts` right
after generating and throws once `attempts` reaches 10 before the registry
check, so at most nine candidates are ever checked (the tenth generated
code is discarded by the throw).  `fuel = 9 - attempts` counts the
remaining registry checks; `taken code` models
`Url.findOne({ $or: [{ shortCode }, { customAlias: shortCode }] })`. -/
def generateShortCodeLoop1 (gen : Nat → Nat → JsStr) (taken : JsStr → Bool)
    (length : Nat) : (fuel : Nat) → (attempts : Nat) → Except JsStr JsStr
  | 0, _ => Except.error (js "Failed to generate unique short code")
  | fuel + 1, attempts =>
    let shortCode := gen attempts length
    if taken shortCode then
      generateShortCodeLoop1 gen taken length fuel (attempts + 1)
    else
      Except.ok shortCode

/-- Entry point of the `short1.js` generator. -/
def generateShortCode1 (gen : Nat → Nat → JsStr) (taken : JsStr → Bool)
    (length : Nat := 8) : Except JsStr JsStr :=
  generateShortCodeLoop1 gen taken length 9 0

/-- The alias character class `[a-zA-Z0-9_-]` of `validateCustomAlias`. -/
def isAliasChar (c : Char) : Bool :=
  ('a' ≤ c && c ≤ 'z') || ('A' ≤ c && c ≤ 'Z') || ('0' ≤ c && c ≤ '9') || c = '_' || c = '-'

/-- The reserved words list of `validateCustomAlias` in `short.js`. -/
def reservedWords : List JsStr :=
  [js "api", js "admin", js "www", js "mail", js "ftp", js "localhost",
   js "dashboard", js "analytics", js "auth", js "login", js "register",
   js "about", js "contact", js "help", js "support", js "terms", js "privacy",
   js "health", js "status", js "docs", js "documentation"]

/-- `validateCustomAlias` from `src/backend/src/utils/short.js`, with the
registry lookup `Url.findOne({ $or: [{ shortCode: alias }, { customAlias:
alias }] })` abstracted as the predicate `taken`.  Thrown errors become
`Except.error`. -/
def validateCustomAlias (taken : JsStr → Bool) (a : JsStr) : Except JsStr Bool :=
  if a = [] then Except.ok true
  else if ¬ (a ≠ [] ∧ a.all isAliasChar) then
    Except.error (js "Custom alias can only contain letters, numbers, hyphens, and underscores")
  else if a.length < 3 then
    Except.error (js "Custom alias must be at least 3 characters long")
  else if a.length > 50 then
    Except.error (js "Custom alias cannot exceed 50 characters")
  else if taken a then
    Except.error (js "This alias is already taken")
  else if jsLower a ∈ reservedWords then
    Except.error (js "This alias is reserved and cannot be used")
  else
    Except.ok true

example : normalizeUrl (js "  example.com ") = js "https://example.com" := by decide
example : normalizeUrl (js "HTTP://x.y") = js "HTTP://x.y" := by decide
example : normalizeUrl [] = [] := by decide
deriving instance DecidableEq for Except

example : generateShortCode (fun _ len => List.replicate len 'a') [js "aaaaaa"]
    = Except.ok (js "aaaaaaa") := by decide

/-! ## src/backend/src/utils/userAgent (agent.js / part_005, identical logic) -/

/-- Browser name/version as produced by `parseUserAgent`. -/
structure BrowserInfo where
  name : JsStr
  version : JsStr
deriving DecidableEq, Repr

/-- Operating-system name/version as produced by `parseUserAgent`. -/
structure OSInfo where
  name : JsStr
  version : JsStr
deriving DecidableEq, Repr

/-- Device classification as produced by `parseUserAgent`. -/
structure DeviceInfo where
  type : JsStr
  brand : JsStr
  model : JsStr
deriving DecidableEq, Repr

/-- The record returned by `parseUserAgent`. -/
structure ParsedUA where
  browser : BrowserInfo
  os : OSInfo
  device : DeviceInfo
deriving DecidableEq, Repr

/-- Characters of the `[0-9.]` class in the version-capture regexes. -/
def isVersionDot (c : Char) : Bool := ('0' ≤ c && c ≤ '9') || c = '.'

/-- Characters of the `[0-9_]` class in the macOS/iOS version regexes. -/
def isVersionUnderscore (c : Char) : Bool := ('0' ≤ c && c ≤ '9') || c = '_'

/-- One position of a version regex `(?:lit₁|lit₂|…)([cls]+)`: try the
alternation literals in order; a literal matches the prefix only when at
least one class character follows it (the `+` quantifier). -/
def matchVersionAt (lits : List JsStr) (cls : Char → Bool) (s : JsStr) : Option JsStr :=
  match lits with
  | [] => none
  | lit :: rest =>
    if lit.isPrefixOf s then
      let run := (s.drop lit.length).takeWhile cls
      if run = [] then matchVersionAt rest cls s else some run
    else
      matchVersionAt rest cls s

/-- Leftmost match of `(?:lit₁|lit₂|…)([cls]+)` in `s`
(`String.prototype.match` returning the first capture group). -/
def scanVersion (lits : List JsStr) (cls : Char → Bool) : JsStr → Option JsStr
  | [] => none
  | c :: rest =>
    match matchVersionAt lits cls (c :: rest) with
    | some v => some v
    | none => scanVersion lits cls rest

/-- `extractVersion` from the user-agent utility: the first capture of the
version regex, or `'Unknown'` when there is no match. -/
def extractVersion (lits : List JsStr) (cls : Char → Bool) (ua : JsStr) : JsStr :=
  (scanVersion lits cls ua).getD (js "Unknown")

/-- `.replace(/_/g, '.')` applied to extracted macOS/iOS versions. -/
def underscoresToDots (s : JsStr) : JsStr :=
  s.map fun c => if c = '_' then '.' else c

/-- `parseBrowser`/`detectBrowser`: ordered `includes` checks over the
lowercased user agent. -/
def parseBrowser (ua : JsStr) : BrowserInfo :=
  if containsSub (js "chrome") ua && !containsSub (js "edg") ua then
    ⟨js "Chrome", extractVersion [js "chrome/"] isVersionDot ua⟩
  else if containsSub (js "edg") ua then
    ⟨js "Edge", extractVersion [js "edg/"] isVersionDot ua⟩
  else if containsSub (js "firefox") ua then
    ⟨js "Firefox", extractVersion [js "firefox/"] isVersionDot ua⟩
  else if containsSub (js "safari") ua && !containsSub (js "chrome") ua then
    ⟨js "Safari", extractVersion [js "version/"] isVersionDot ua⟩
  else if containsSub (js "opera") ua || containsSub (js "opr") ua then
    ⟨js "Opera", extractVersion [js "opera/", js "opr/"] isVersionDot ua⟩
  else if containsSub (js "msie") ua || containsSub (js "trident") ua then
    ⟨js "Internet Explorer", extractVersion [js "msie ", js "rv:"] isVersionDot ua⟩
  else
    ⟨js "Unknown", js "Unknown"⟩

/-- `parseOS`/`detectOS`. -/
def parseOS (ua : JsStr) : OSInfo :=
  if containsSub (js "windows") ua then
    if containsSub (js "windows nt 10.0") ua then ⟨js "Windows", js "10"⟩
    else if containsSub (js "windows nt 6.3") ua then ⟨js "Windows", js "8.1"⟩
    else if containsSub (js "windows nt 6.2") ua then ⟨js "Windows", js "8"⟩
    else if containsSub (js "windows nt 6.1") ua then ⟨js "Windows", js "7"⟩
    else ⟨js "Windows", js "Unknown"⟩
  else if containsSub (js "mac os x") ua then
    ⟨js "macOS", underscoresToDots (extractVersion [js "mac os x "] isVersionUnderscore ua)⟩
  else if containsSub (js "linux") ua then
    if containsSub (js "ubuntu") ua then ⟨js "Ubuntu", js "Unknown"⟩
    else if containsSub (js "debian") ua then ⟨js "Debian", js "Unknown"⟩
    else if containsSub (js "fedora") ua then ⟨js "Fedora", js "Unknown"⟩
    else ⟨js "Linux", js "Unknown"⟩
  else if containsSub (js "android") ua then
    ⟨js "Android", extractVersion [js "android "] isVersionDot ua⟩
  else if containsSub (js "iphone") ua || containsSub (js "ipad") ua ||
      containsSub (js "ipod") ua then
    ⟨js "iOS", underscoresToDots (extractVersion [js "os "] isVersionUnderscore ua)⟩
  else
    ⟨js "Unknown", js "Unknown"⟩

/-- `parseDevice`/`detectDevice`. -/
def parseDevice (ua : JsStr) : DeviceInfo :=
  if containsSub (js "mobile") ua || containsSub (js "android") ua ||
      containsSub (js "iphone") ua then
    if containsSub (js "iphone") ua then ⟨js "mobile", js "Apple", js "iPhone"⟩
    else if containsSub (js "android") ua then
      if [js "samsung", js "galaxy", js "gt-", js "sm-"].any (containsSub · ua) then
        ⟨js "mobile", js "Samsung", js "Android"⟩
      else if [js "huawei", js "honor"].any (containsSub · ua) then
        ⟨js "mobile", js "Huawei", js "Android"⟩
      else if [js "xiaomi", js "mi ", js "redmi"].any (containsSub · ua) then
        ⟨js "mobile", js "Xiaomi", js "Android"⟩
      else ⟨js "mobile", js "Unknown", js "Android"⟩
    else ⟨js "mobile", js "Unknown", js "Unknown"⟩
  else if containsSub (js "tablet") ua || containsSub (js "ipad") ua then
    if containsSub (js "ipad") ua then ⟨js "tablet", js "Apple", js "iPad"⟩
    else ⟨js "tablet", js "Unknown", js "Unknown"⟩
  else
    ⟨js "desktop", js "Unknown", js "Unknown"⟩

/-- `parseUserAgent` from `src/unnamed/part_005` lines 106-132 (identically
`src/backend/src/utils/agent.js`): a falsy user agent yields the all-Unknown
record with device type `'unknown'`; otherwise the string is lowercased and
the three detectors run on it. -/
def parseUserAgent (userAgent : JsStr) : ParsedUA :=
  if userAgent = [] then
    ⟨⟨js "Unknown", js "Unknown"⟩, ⟨js "Unknown", js "Unknown"⟩,
     ⟨js "unknown", js "Unknown", js "Unknown"⟩⟩
  else
    let ua := jsLower userAgent
    ⟨parseBrowser ua, parseOS ua, parseDevice ua⟩

/-- The bot patterns of `isBot` in `src/unnamed/part_005` lines 277-301
(identically `agent.js`), all case-insensitive unanchored literals. -/
def botPatterns : List JsStr :=
  [js "googlebot", js "bingbot", js "slurp", js "duckduckbot", js "baiduspider",
   js "yandexbot", js "facebookexternalhit", js "twitterbot", js "linkedinbot",
   js "whatsapp", js "telegram", js "crawler", js "spider", js "bot",
   js "headless", js "phantom", js "scraper"]

/-- `isBot` from `src/unnamed/part_005` lines 277-301: a falsy (empty,
null, undefined — here the empty string) user agent is not a bot; otherwise
any bot pattern matching case-insensitively makes it one. -/
def isBot (userAgent : JsStr) : Bool :=
  if userAgent = [] then false
  else botPatterns.any fun p => containsCI p userAgent

/-! ## src/backend/src/utils/ip (getClientIP, getGeolocation in part_005) -/

/-- JavaScript truthiness of an optional header string
(`undefined` and `''` are falsy). -/
def jsTruthy (v : Option JsStr) : Bool :=
  match v with
  | none => false
  | some s => s ≠ []

/-- `v || d` on JavaScript strings: `d` when `v` is missing or empty. -/
def jsOrStr (v : Option JsStr) (d : JsStr) : JsStr :=
  match v with
  | none => d
  | some s => if s = [] then d else s

/-- An incoming HTTP request, restricted to the pieces the controllers
read: headers, the connection address, and the (optionally) authenticated
user attached by the auth middleware. -/
structure Request where
  userAgentHeader : Option JsStr
  refererHeader : Option JsStr
  referrerHeader : Option JsStr
  xForwardedFor : Option JsStr
  xRealIP : Option JsStr
  cfConnectingIP : Option JsStr
  remoteAddress : Option JsStr
  user : Option Nat
deriving DecidableEq, Repr

/-- `getClientIP` from the ip utility: prefer `X-Forwarded-For` (first
comma-separated entry, trimmed), then `X-Real-IP`, then `CF-Connecting-IP`,
then the connection's remote address, falling back to `'127.0.0.1'`. -/
def getClientIP (req : Request) : JsStr :=
  if jsTruthy req.xForwardedFor then
    jsTrim (((req.xForwardedFor.getD []).splitOn ',').headD [])
  else if jsTruthy req.xRealIP then req.xRealIP.getD []
  else if jsTruthy req.cfConnectingIP then req.cfConnectingIP.getD []
  else jsOrStr req.remoteAddress (js "127.0.0.1")

/-- A geolocation record as returned by the mock `getGeolocation`. -/
structure Geo where
  country : JsStr
  city : JsStr
  region : JsStr
  timezone : JsStr
deriving DecidableEq, Repr

/-- `getGeolocation` from the ip utility (mock implementation): local and
private addresses map to `'Local'`, everything else to `'Unknown'`. -/
def getGeolocation (ip : JsStr) : Geo :=
  if ip = js "127.0.0.1" || ip = js "::1" ||
      (js "192.168.").isPrefixOf ip || (js "10.").isPrefixOf ip then
    ⟨js "Local", js "Local", js "Local", js "Local"⟩
  else
    ⟨js "Unknown", js "Unknown", js "Unknown", js "Unknown"⟩

/-! ## Data model (Mongoose documents embedded as records) -/

/-- A `Url` document (the Link of the spec's data model). -/
structure Link where
  id : Nat
  originalUrl : JsStr
  shortCode : JsStr
  customAlias : Option JsStr
  user : Option Nat
  title : JsStr
  description : Option JsStr
  tags : List JsStr
  isActive : Bool
  expiresAt : Option Int
  clicks : Int
  lastClickedAt : Option Int
deriving DecidableEq, Repr

/-- A `Click` document: one recorded redirect traversal. -/
structure Click where
  url : Nat
  user : Option Nat
  ipAddress : JsStr
  userAgent : JsStr
  referer : Option JsStr
  country : JsStr
  city : JsStr
  browser : BrowserInfo
  os : OSInfo
  device : DeviceInfo
  timestamp : Int
deriving DecidableEq, Repr

/-- A `User` document, restricted to the denormalized aggregate counters
the URL controller touches. -/
structure UserRec where
  id : Nat
  urlsCount : Int
  totalClicks : Int
deriving DecidableEq, Repr

/-- The database: the three collections the URL controller owns.
MongoDB `findOne` is `List.find?` in insertion order. -/
structure DB where
  urls : List Link
  clicks : List Click
  users : List UserRec
deriving DecidableEq, Repr

/-- `urlSchema.methods.isExpired` from the Url model in
`src/unnamed/part_004` lines 260-263: `if (!this.expiresAt) return false;
return new Date() > this.expiresAt;` — false when no expiration is set
(`null`), true exactly when the current time lies strictly after the
expiration timestamp. -/
def isExpired (now : Int) (l : Link) : Bool :=
  match l.expiresAt with
  | none => false
  | some t => t < now

/-- `urlSchema.methods.incrementClicks` from the Url model in
`src/unnamed/part_004` lines 266-270: `this.clicks += 1;
this.lastClickedAt = new Date(); return await this.save();` — the mutated
document; the `save()` is the write-back applied at the call sites via
`updateLink`. -/
def incrementClicks (now : Int) (l : Link) : Link :=
  { l with clicks := l.clicks + 1, lastClickedAt := some now }

/-- `Url.findOne({ $or: [{ shortCode }, { customAlias: shortCode }], isActive:
true })` as issued by both `redirectUrl` variants. -/
def findActiveUrl (urls : List Link) (code : JsStr) : Option Link :=
  urls.find? fun l => (l.shortCode = code || l.customAlias = some code) && l.isActive

/-- `User.findByIdAndUpdate(uid, { $inc: ... })` on the two counters. -/
def incUserCounters (users : List UserRec) (uid : Nat) (dUrls dClicks : Int) :
    List UserRec :=
  users.map fun u =>
    if u.id = uid then
      { u with urlsCount := u.urlsCount + dUrls, totalClicks := u.totalClicks + dClicks }
    else u

/-- Replace a link in the collection by its id (a Mongoose `save` of a
mutated document). -/
def updateLink (urls : List Link) (l : Link) : List Link :=
  urls.map fun x => if x.id = l.id then l else x

/-! ## Controllers: the redirect resolvers -/

/-- Which storage writes of the click-recording path fail (a `true` flag is
a rejected promise from the corresponding awaited operation). -/
structure FailState where
  geoFails : Bool
  clickCreateFails : Bool
  incrementClicksFails : Bool
  userIncFails : Bool
deriving DecidableEq, Repr

/-- The all-success failure state. -/
def noFail : FailState := ⟨false, false, false, false⟩

/-- HTTP responses of the redirect endpoint; `serverError` is an error that
escaped the handler into `asyncHandler`'s error middleware. -/
inductive RedirectResp where
  | notFound
  | gone
  | movedPermanently (location : JsStr)
  | serverError
deriving DecidableEq, Repr

/-- The click document built by `redirectUrl` in
`src/backend/src/controllers/url.controller.js` lines 341-353. -/
def buildClick (url : Link) (req : Request) (now : Int) : Click :=
  let clientIP := getClientIP req
  let userAgent := jsOrStr req.userAgentHeader []
  let referer :=
    if jsTruthy req.refererHeader then req.refererHeader
    else if jsTruthy req.referrerHeader then req.referrerHeader
    else none
  let geolocation := getGeolocation clientIP
  let parsedUA := parseUserAgent userAgent
  { url := url.id
    user := req.user
    ipAddress := clientIP
    userAgent := userAgent
    referer := referer
    country := geolocation.country
    city := geolocation.city
    browser := parsedUA.browser
    os := parsedUA.os
    device := parsedUA.device
    timestamp := now }

/-- `redirectUrl` from `src/backend/src/controllers/url.controller.js`
lines 300-370.  The lookup restricts to active links; an expired link
answers 410 before any recording; bot traffic skips recording; otherwise
the handler *awaits*, in order, the geolocation lookup, `Click.create`,
`url.incrementClicks()` and the owner-counter update before issuing the
301 — a rejection at any of these steps propagates through `asyncHandler`
and the error middleware (`serverError`), leaving the effects of the
already-completed steps in place. -/
def redirectUrl (db : DB) (now : Int) (code : JsStr) (req : Request)
    (f : FailState) : RedirectResp × DB :=
  match findActiveUrl db.urls code with
  | none => (RedirectResp.notFound, db)
  | some url =>
    if isExpired now url then (RedirectResp.gone, db)
    else
      let userAgent := jsOrStr req.userAgentHeader []
      if isBot userAgent then (RedirectResp.movedPermanently url.originalUrl, db)
      else if f.geoFails then (RedirectResp.serverError, db)
      else
        let click := buildClick url req now
        if f.clickCreateFails then (RedirectResp.serverError, db)
        else
          let db1 := { db with clicks := db.clicks ++ [click] }
          if f.incrementClicksFails then (RedirectResp.serverError, db1)
          else
            let db2 := { db1 with urls := updateLink db1.urls (incrementClicks now url) }
            match url.user with
            | some uid =>
              if f.userIncFails then (RedirectResp.serverError, db2)
              else
                (RedirectResp.movedPermanently url.originalUrl,
                 { db2 with users := incUserCounters db2.users uid 0 1 })
            | none => (RedirectResp.movedPermanently url.originalUrl, db2)

/-- `trackClick` from `src/unnamed/part_000` lines 50-85: skip bots; await
the geolocation lookup (a rejection there aborts the rest of the helper);
then issue `Click.create`, `url.incrementClicks()` and the owner-counter
update concurrently via `Promise.all`, so a rejection of one write does not
cancel the others.  The helper's returned promise rejects iff some step
failed — the caller ignores that through `.catch`. -/
def trackClick (db : DB) (url : Link) (req : Request) (now : Int)
    (f : FailState) : DB :=
  let userAgent := jsOrStr req.userAgentHeader []
  if isBot userAgent then db
  else if f.geoFails then db
  else
    let click := buildClick url req now
    let db1 := if f.clickCreateFails then db
               else { db with clicks := db.clicks ++ [click] }
    let db2 := if f.incrementClicksFails then db1
               else { db1 with urls := updateLink db1.urls (incrementClicks now url) }
    match url.user with
    | some uid =>
      if f.userIncFails then db2
      else { db2 with users := incUserCounters db2.users uid 0 1 }
    | none => db2

/-- `redirectUrl` from `src/unnamed/part_000` lines 331-351 (the refactored
controller): same lookup and expiration handling, but click tracking is
fire-and-forget — `trackClick(url, req).catch(err => console.error(...))` —
so the 301 response never depends on the recording path's outcome. -/
def redirectUrlRefactored (db : DB) (now : Int) (code : JsStr) (req : Request)
    (f : FailState) : RedirectResp × DB :=
  match findActiveUrl db.urls code with
  | none => (RedirectResp.notFound, db)
  | some url =>
    if isExpired now url then (RedirectResp.gone, db)
    else (RedirectResp.movedPermanently url.originalUrl, trackClick db url req now f)

/-! ## Controllers: deleteUrl -/

/-- Which of `deleteUrl`'s three storage writes fail. -/
structure DeleteFail where
  clickDeleteFails : Bool
  urlDeleteFails : Bool
  userUpdateFails : Bool
deriving DecidableEq, Repr

/-- The all-success deletion failure state. -/
def noDeleteFail : DeleteFail := ⟨false, false, false⟩

/-- Responses of the delete endpoint. -/
inductive DeleteResp where
  | notFound
  | ok
  | serverError
deriving DecidableEq, Repr

/-- `deleteUrl` from `src/backend/src/controllers/url.controller.js` lines
265-293: find the link by id *and* owner (404 otherwise), then — as three
separately awaited operations, with no transaction — delete the link's
Click documents, delete the link, and `$inc` the owner's counters by
`{ urlsCount: -1, totalClicks: -url.clicks }`.  A rejection at any step
escapes through `asyncHandler` (`serverError`), leaving the effects of the
steps already completed in place. -/
def deleteUrl (db : DB) (reqUser : Nat) (urlId : Nat) (f : DeleteFail) :
    DeleteResp × DB :=
  match db.urls.find? (fun l => l.id = urlId && l.user = some reqUser) with
  | none => (DeleteResp.notFound, db)
  | some url =>
    if f.clickDeleteFails then (DeleteResp.serverError, db)
    else
      let db1 := { db with clicks := db.clicks.filter (fun c => ¬ c.url = url.id) }
      if f.urlDeleteFails then (DeleteResp.serverError, db1)
      else
        let db2 := { db1 with urls := db1.urls.filter (fun l => ¬ l.id = url.id) }
        if f.userUpdateFails then (DeleteResp.serverError, db2)
        else
          (DeleteResp.ok,
           { db2 with users := incUserCounters db2.users reqUser (-1) (-url.clicks) })

/-- `deleteUrl` from `src/unnamed/part_000` lines 306-324: the same three
writes, issued concurrently via `Promise.all` (still no transaction), so
each write's effect lands independently of the others' failures; the
response is an error iff some write failed. -/
def deleteUrlRefactored (db : DB) (reqUser : Nat) (urlId : Nat)
    (f : DeleteFail) : DeleteResp × DB :=
  match db.urls.find? (fun l => l.id = urlId && l.user = some reqUser) with
  | none => (DeleteResp.notFound, db)
  | some url =>
    let clicks' := if f.clickDeleteFails then db.clicks
                   else db.clicks.filter (fun c => ¬ c.url = url.id)
    let urls' := if f.urlDeleteFails then db.urls
                 else db.urls.filter (fun l => ¬ l.id = url.id)
    let users' := if f.userUpdateFails then db.users
                  else incUserCounters db.users reqUser (-1) (-url.clicks)
    (if f.clickDeleteFails || f.urlDeleteFails || f.userUpdateFails
       then DeleteResp.serverError else DeleteResp.ok,
     { urls := urls', clicks := clicks', users := users' })

/-! ## Controllers: createShortUrl -/

/-- Oracles for `createShortUrl`: the platform URL parser behind
`isValidUrl` and `extractDomain` (treated as external collaborators by
§1 of the spec), the `nanoid` randomness, and the ObjectId the store
assigns to a freshly created document. -/
structure CreateEnv where
  isValidUrl : JsStr → Bool
  extractDomain : JsStr → JsStr
  gen : Nat → Nat → JsStr
  freshId : Nat

/-- The request body of `POST /api/urls`. -/
structure CreateBody where
  originalUrl : Option JsStr
  customAlias : Option JsStr
  title : Option JsStr
  description : Option JsStr
  tags : Option (List JsStr)
  expiresAt : Option Int
deriving Repr

/-- Responses of the create endpoint. -/
inductive CreateResp where
  | badRequest (msg : JsStr)
  | okExisting (url : Link)
  | created (url : Link)
  | serverError
deriving DecidableEq, Repr

/-- The registry predicate `validateCustomAlias` queries:
`Url.findOne({ $or: [{ shortCode: alias }, { customAlias: alias }] })`. -/
def aliasTaken (urls : List Link) (a : JsStr) : Bool :=
  urls.any fun l => l.shortCode = a || l.customAlias = some a

/-- `createShortUrl` from `src/backend/src/controllers/url.controller.js`
lines 21-119, for a caller optionally authenticated as `reqUser`:
reject a missing destination; normalize (`normalizeUrl(originalUrl.trim())`)
and validate it; validate a provided custom alias; for an authenticated
caller, return any existing link with the same owner and normalized
destination unchanged (the dedup step — skipped entirely for anonymous
callers); otherwise allocate a code (the custom alias, or
`generateShortCode()`, whose capacity error escapes as a server error),
validate the expiration date, and persist the new link, incrementing the
owner's `urlsCount`.  `isActive := true`, `clicks := 0` and an unset
last-clicked stamp are the stored document's initial values, the schema
defaults of the Url model in `src/unnamed/part_004` (`clicks: { default:
0 }`, `isActive: { default: true }`, `lastClickedAt: { default: null }`). -/
def createShortUrl (db : DB) (now : Int) (env : CreateEnv) (reqUser : Option Nat)
    (body : CreateBody) : CreateResp × DB :=
  if ¬ jsTruthy body.originalUrl then
    (CreateResp.badRequest (js "Original URL is required"), db)
  else
    let normalizedUrl := normalizeUrl (jsTrim (body.originalUrl.getD []))
    if ¬ env.isValidUrl normalizedUrl then
      (CreateResp.badRequest (js "Please provide a valid URL with http:// or https://"), db)
    else
      let aliasStep : Except JsStr Bool :=
        if jsTruthy body.customAlias then
          validateCustomAlias (aliasTaken db.urls) (jsTrim (body.customAlias.getD []))
        else Except.ok true
      match aliasStep with
      | Except.error msg => (CreateResp.badRequest msg, db)
      | Except.ok _ =>
        let dup : Option Link :=
          match reqUser with
          | some uid => db.urls.find? (fun l =>
              l.originalUrl = normalizedUrl && l.user = some uid)
          | none => none
        match dup with
        | some existingUrl => (CreateResp.okExisting existingUrl, db)
        | none =>
          let codeStep : Except JsStr JsStr :=
            if jsTruthy body.customAlias then Except.ok (jsTrim (body.customAlias.getD []))
            else generateShortCode env.gen (db.urls.map (·.shortCode))
          match codeStep with
          | Except.error _ => (CreateResp.serverError, db)
          | Except.ok shortCode =>
            if (match body.expiresAt with
                | some e => decide (e ≤ now)
                | none => false) then
              (CreateResp.badRequest (js "Expiration date must be in the future"), db)
            else
              let url : Link :=
                { id := env.freshId
                  originalUrl := normalizedUrl
                  shortCode := shortCode
                  customAlias :=
                    if jsTruthy body.customAlias then some (jsTrim (body.customAlias.getD []))
                    else none
                  user := reqUser
                  title :=
                    if jsTruthy body.title then jsTrim (body.title.getD [])
                    else env.extractDomain normalizedUrl
                  description :=
                    if jsTruthy body.description then some (jsTrim (body.description.getD []))
                    else none
                  tags := ((body.tags.getD []).map jsTrim).filter (· ≠ [])
                  isActive := true
                  expiresAt := body.expiresAt
                  clicks := 0
                  lastClickedAt := none }
              let db1 := { db with urls := db.urls ++ [url] }
              let db2 :=
                match reqUser with
                | some uid => { db1 with users := incUserCounters db1.users uid 1 0 }
                | none => db1
              (CreateResp.created url, db2)

/-! ## Controllers: getUrlAnalytics (aggregation core) -/

/-- The `$match` stage shared by every branch of the analytics aggregation:
`{ url: url._id, timestamp: { $gte: start, $lte: end } }`. -/
def matchWindow (clicks : List Click) (urlId : Nat) (start endT : Int) :
    List Click :=
  clicks.filter fun c => c.url = urlId && (start ≤ c.timestamp && c.timestamp ≤ endT)

/-- `summary.totalClicks`: the `$group`/`$sum: 1` over the matched window
(`{ totalClicks: 0 }` when the window is empty collapses to length 0). -/
def summaryTotalClicks (clicks : List Click) (urlId : Nat) (start endT : Int) : Nat :=
  (matchWindow clicks urlId start endT).length

/-- `summary.uniqueVisitors`: `$addToSet: '$ipAddress'` then `$size`. -/
def summaryUniqueVisitors (clicks : List Click) (urlId : Nat) (start endT : Int) : Nat :=
  ((matchWindow clicks urlId start endT).map (·.ipAddress)).dedup.length

/-- A `$group: { _id: key, clicks: { $sum: 1 } }` stage: one row per
distinct key with its multiplicity (rows in the order `List.dedup` yields,
a deterministic refinement of MongoDB's unspecified group order). -/
def groupCountBy (l : List Click) (key : Click → JsStr) : List (JsStr × Nat) :=
  (l.map key).dedup.map fun k => (k, (l.map key).count k)

/-- The `$sort: { clicks: -1 }` order on grouped rows. -/
def clicksDescRel (a b : JsStr × Nat) : Prop := b.2 ≤ a.2

instance : DecidableRel clicksDescRel := fun a b => Nat.decLe b.2 a.2

instance : IsTotal (JsStr × Nat) clicksDescRel :=
  ⟨fun a b => (Nat.le_total b.2 a.2).imp id id⟩

instance : IsTrans (JsStr × Nat) clicksDescRel :=
  ⟨fun _ _ _ hab hbc => Nat.le_trans hbc hab⟩

/-- `$sort: { clicks: -1 }` (a stable sort standing for MongoDB's
tie-order-unspecified sort). -/
def sortByClicksDesc (rows : List (JsStr × Nat)) : List (JsStr × Nat) :=
  rows.insertionSort clicksDescRel

/-- The `clicksByCountry` pipeline branch of `getUrlAnalytics`
(`url.controller.js` lines 475-490, `part_000` line 371):
group by `$country`, sort by clicks descending, `$limit: 10`. -/
def clicksByCountry (clicks : List Click) (urlId : Nat) (start endT : Int) :
    List (JsStr × Nat) :=
  (sortByClicksDesc
    (groupCountBy (matchWindow clicks urlId start endT) (·.country))).take 10

/-- The `clicksByBrowser` branch: group by `$browser.name`, top 10. -/
def clicksByBrowser (clicks : List Click) (urlId : Nat) (start endT : Int) :
    List (JsStr × Nat) :=
  (sortByClicksDesc
    (groupCountBy (matchWindow clicks urlId start endT) (·.browser.name))).take 10

/-- The `clicksByOS` branch: group by `$os.name`, top 10. -/
def clicksByOS (clicks : List Click) (urlId : Nat) (start endT : Int) :
    List (JsStr × Nat) :=
  (sortByClicksDesc
    (groupCountBy (matchWindow clicks urlId start endT) (·.os.name))).take 10

/-- The `clicksByDevice` branch: group by `$device.type`, sorted
descending, with no `$limit`. -/
def clicksByDevice (clicks : List Click) (urlId : Nat) (start endT : Int) :
    List (JsStr × Nat) :=
  sortByClicksDesc
    (groupCountBy (matchWindow clicks urlId start endT) (·.device.type))

/-! ## Chart rendering (part_000 lines 396-402)

An aggregation row's `_id` is `Option JsStr`: `none` models a document
whose grouped field was absent (`$group` produces `_id: null`), and the
JavaScript `||` also replaces an empty string. -/

/-- `i._id || fallback` over a row list, keeping the click counts. -/
def renderChartRows (fallback : JsStr) (rows : List (Option JsStr × Nat)) :
    List (JsStr × Nat) :=
  rows.map fun i => (jsOrStr i.1 fallback, i.2)

/-- `clicksByCountry: ...map(i => ({ country: i._id || 'Unknown', clicks:
i.clicks }))` — `part_000` line 398. -/
def renderCountryChart (rows : List (Option JsStr × Nat)) : List (JsStr × Nat) :=
  renderChartRows (js "Unknown") rows

/-- `clicksByBrowser: ...map(i => ({ browser: i._id || 'Unknown', ... }))`
— `part_000` line 399. -/
def renderBrowserChart (rows : List (Option JsStr × Nat)) : List (JsStr × Nat) :=
  renderChartRows (js "Unknown") rows

/-- `clicksByOS: ...map(i => ({ os: i._id || 'Unknown', ... }))`
— `part_000` line 400. -/
def renderOSChart (rows : List (Option JsStr × Nat)) : List (JsStr × Nat) :=
  renderChartRows (js "Unknown") rows

/-- `clicksByDevice: ...map(i => ({ device: i._id || 'desktop', ... }))`
— `part_000` line 401. -/
def renderDeviceChart (rows : List (Option JsStr × Nat)) : List (JsStr × Nat) :=
  renderChartRows (js "desktop") rows


/-! ## Lemmas about jsTrim -/

theorem jsTrim_eq_rdropWhile (s : JsStr) :
    jsTrim s = List.rdropWhile isJsWhitespace (List.dropWhile isJsWhitespace s) := rfl

theorem dropWhile_rdropWhile_self (p : Char → Bool) (l : List Char)
    (hl : List.dropWhile p l = l) :
    List.dropWhile p (List.rdropWhile p l) = List.rdropWhile p l := by
  cases hr : List.rdropWhile p l with
  | nil => simp
  | cons c rest =>
    obtain ⟨u, hu⟩ := List.rdropWhile_prefix p l
    rw [hr] at hu
    have hc : p c = false := by
      cases l with
      | nil => simp at hu
      | cons a t =>
        rw [List.cons_append] at hu
        have hca : c = a := (List.cons.injEq _ _ _ _ ▸ hu).1
        rw [List.dropWhile_cons] at hl
        by_cases hp : p a = true
        · rw [if_pos hp] at hl
          have hlen : (List.dropWhile p t).length ≤ t.length :=
            (List.dropWhile_sublist p).length_le
          rw [hl] at hlen
          simp at hlen
        · rw [hca]
          exact Bool.not_eq_true _ ▸ hp
    rw [List.dropWhile_cons, hc]
    simp

theorem dropWhile_jsTrim (s : JsStr) :
    List.dropWhile isJsWhitespace (jsTrim s) = jsTrim s :=
  dropWhile_rdropWhile_self isJsWhitespace (List.dropWhile isJsWhitespace s)
    (List.dropWhile_idempotent isJsWhitespace s)

theorem jsTrim_jsTrim (s : JsStr) : jsTrim (jsTrim s) = jsTrim s := by
  rw [jsTrim_eq_rdropWhile (jsTrim s), dropWhile_jsTrim, jsTrim_eq_rdropWhile s]
  exact List.rdropWhile_idempotent _ _

theorem jsLower_append (a b : JsStr) : jsLower (a ++ b) = jsLower a ++ jsLower b :=
  List.map_append lowerChar a b

/-- Claim C10: `normalizeUrl` is idempotent — a falsy input is returned
as-is, and any non-falsy output either already carries an `http(s)` scheme
(so the second pass only re-trims, a no-op) or has `https://` prepended to
a trimmed string (which the second pass leaves untouched). -/
theorem normalizeUrl_idempotent (url : JsStr) :
    normalizeUrl (normalizeUrl url) = normalizeUrl url := by
  by_cases h0 : url = []
  · simp [normalizeUrl, h0]
  · by_cases hs : ((js "http://").isPrefixOf (jsLower (jsTrim url)) ||
        (js "https://").isPrefixOf (jsLower (jsTrim url))) = true
    · have hres : normalizeUrl url = jsTrim url := by
        rw [normalizeUrl, if_neg h0, if_pos hs]
      rw [hres]
      have ht0 : jsTrim url ≠ [] := by
        intro h
        rw [h] at hs
        exact absurd hs (by decide)
      rw [normalizeUrl, if_neg ht0, jsTrim_jsTrim, if_pos hs]
    · have hres : normalizeUrl url = js "https://" ++ jsTrim url := by
        rw [normalizeUrl, if_neg h0, if_neg hs]
      rw [hres]
      have hr0 : js "https://" ++ jsTrim url ≠ [] := by simp [js]
      have hdrop : List.dropWhile isJsWhitespace (js "https://" ++ jsTrim url)
          = js "https://" ++ jsTrim url := rfl
      have hrdrop : List.rdropWhile isJsWhitespace (js "https://" ++ jsTrim url)
          = js "https://" ++ jsTrim url := by
        rw [List.rdropWhile_eq_self_iff]
        intro hl
        by_cases ht : jsTrim url = []
        · have hne : js "https://" ≠ [] := by simp [js]
          have hgl : (js "https://" ++ jsTrim url).getLast hl
              = (js "https://").getLast hne :=
            List.getLast_congr _ _ (by rw [ht, List.append_nil])
          have hch : (js "https://").getLast hne = '/' := rfl
          rw [hgl, hch]
          decide
        · rw [List.getLast_append' _ _ ht]
          exact List.rdropWhile_last_not isJsWhitespace
            (List.dropWhile isJsWhitespace url) ht
      have htrim : jsTrim (js "https://" ++ jsTrim url) = js "https://" ++ jsTrim url := by
        rw [jsTrim_eq_rdropWhile, hdrop, hrdrop]
      have hpre : (js "https://").isPrefixOf
          (jsLower (js "https://" ++ jsTrim url)) = true := by
        rw [jsLower_append]
        have hlow : jsLower (js "https://") = js "https://" := by decide
        rw [hlow]
        exact List.isPrefixOf_iff_prefix.mpr (List.prefix_append _ _)
      rw [normalizeUrl, if_neg hr0, htrim, if_pos (by rw [hpre, Bool.or_true])]

/-! ## C1: the generator's collision/length/capacity behaviour -/

theorem generateShortCodeLoop_ok_not_mem (gen : Nat → Nat → JsStr)
    (registry : List JsStr) :
    ∀ fuel attempts length code,
      generateShortCodeLoop gen registry fuel attempts length = Except.ok code →
      code ∉ registry := by
  intro fuel
  induction fuel with
  | zero =>
    intro a len code h
    exact absurd h (by simp [generateShortCodeLoop])
  | succ fuel ih =>
    intro a len code h
    simp only [generateShortCodeLoop] at h
    by_cases hm : gen a len ∈ registry
    · rw [if_pos hm] at h
      exact ih _ _ _ h
    · rw [if_neg hm] at h
      injection h with h2
      rw [← h2]
      exact hm

theorem generateShortCodeLoop_error (gen : Nat → Nat → JsStr)
    (registry : List JsStr) :
    ∀ fuel attempts length, attempts + fuel = 10 →
      (∀ i, i < fuel → gen (attempts + i) (length + i) ∈ registry) →
      generateShortCodeLoop gen registry fuel attempts length
        = Except.error (js "Unable to generate unique short code") := by
  intro fuel
  induction fuel with
  | zero => intro a len _ _; rfl
  | succ fuel ih =>
    intro a len hsum hall
    have h0 : gen a len ∈ registry := by simpa using hall 0 (Nat.succ_pos _)
    simp only [generateShortCodeLoop]
    rw [if_pos h0]
    rcases Nat.eq_zero_or_pos fuel with hf | hf
    · subst hf; rfl
    · have ha1 : a + 1 < 10 := by omega
      rw [if_pos ha1]
      apply ih (a + 1) (len + 1) (by omega)
      intro i hi
      have hstep := hall (i + 1) (by omega)
      rw [show a + 1 + i = a + (i + 1) by omega, show len + 1 + i = len + (i + 1) by omega]
      exact hstep

theorem generateShortCodeLoop_ok_at (gen : Nat → Nat → JsStr)
    (registry : List JsStr) :
    ∀ fuel attempts length j, attempts + fuel = 10 → j < fuel →
      (∀ i, i < j → gen (attempts + i) (length + i) ∈ registry) →
      gen (attempts + j) (length + j) ∉ registry →
      generateShortCodeLoop gen registry fuel attempts length
        = Except.ok (gen (attempts + j) (length + j)) := by
  intro fuel
  induction fuel with
  | zero => intro a len j _ hj; omega
  | succ fuel ih =>
    intro a len j hsum hj hcoll hfree
    cases j with
    | zero =>
      have hnm : gen a len ∉ registry := by simpa using hfree
      simp only [generateShortCodeLoop]
      rw [if_neg hnm]
      simp
    | succ j =>
      have h0 : gen a len ∈ registry := by simpa using hcoll 0 (Nat.succ_pos _)
      simp only [generateShortCodeLoop]
      rw [if_pos h0]
      have ha1 : a + 1 < 10 := by omega
      rw [if_pos ha1]
      have hres := ih (a + 1) (len + 1) j (by omega) (by omega)
        (fun i hi => by
          have hstep := hcoll (i + 1) (by omega)
          rw [show a + 1 + i = a + (i + 1) by omega,
            show len + 1 + i = len + (i + 1) by omega]
          exact hstep)
        (by
          rw [show a + 1 + j = a + (j + 1) by omega,
            show len + 1 + j = len + (j + 1) by omega]
          exact hfree)
      rw [hres, show a + 1 + j = a + (j + 1) by omega,
        show len + 1 + j = len + (j + 1) by omega]

theorem generateShortCodeLoop1_ok_not_taken (gen : Nat → Nat → JsStr)
    (taken : JsStr → Bool) (length : Nat) :
    ∀ fuel attempts code,
      generateShortCodeLoop1 gen taken length fuel attempts = Except.ok code →
      taken code = false := by
  intro fuel
  induction fuel with
  | zero =>
    intro a code h
    exact absurd h (by simp [generateShortCodeLoop1])
  | succ fuel ih =>
    intro a code h
    simp only [generateShortCodeLoop1] at h
    by_cases hm : taken (gen a length) = true
    · rw [if_pos hm] at h
      exact ih _ _ h
    · rw [if_neg hm] at h
      injection h with h2
      rw [← h2]
      exact Bool.not_eq_true _ ▸ hm

theorem generateShortCodeLoop1_error (gen : Nat → Nat → JsStr)
    (taken : JsStr → Bool) (length : Nat) :
    ∀ fuel attempts,
      (∀ i, i < fuel → taken (gen (attempts + i) length) = true) →
      generateShortCodeLoop1 gen taken length fuel attempts
        = Except.error (js "Failed to generate unique short code") := by
  intro fuel
  induction fuel with
  | zero => intro a _; rfl
  | succ fuel ih =>
    intro a hall
    have h0 : taken (gen a length) = true := by simpa using hall 0 (Nat.succ_pos _)
    simp only [generateShortCodeLoop1]
    rw [if_pos h0]
    apply ih (a + 1)
    intro i hi
    have hstep := hall (i + 1) (by omega)
    rw [show a + 1 + i = a + (i + 1) by omega]
    exact hstep

theorem generateShortCodeLoop1_ok_at (gen : Nat → Nat → JsStr)
    (taken : JsStr → Bool) (length : Nat) :
    ∀ fuel attempts j, j < fuel →
      (∀ i, i < j → taken (gen (attempts + i) length) = true) →
      taken (gen (attempts + j) length) = false →
      generateShortCodeLoop1 gen taken length fuel attempts
        = Except.ok (gen (attempts + j) length) := by
  intro fuel
  induction fuel with
  | zero => intro a j hj; omega
  | succ fuel ih =>
    intro a j hj hcoll hfree
    cases j with
    | zero =>
      have hnm : ¬ taken (gen a length) = true := by simpa using hfree
      simp only [generateShortCodeLoop1]
      rw [if_neg hnm]
      simp
    | succ j =>
      have h0 : taken (gen a length) = true := by simpa using hcoll 0 (Nat.succ_pos _)
      simp only [generateShortCodeLoop1]
      rw [if_pos h0]
      have hres := ih (a + 1) j (by omega)
        (fun i hi => by
          have hstep := hcoll (i + 1) (by omega)
          rw [show a + 1 + i = a + (i + 1) by omega]
          exact hstep)
        (by
          rw [show a + 1 + j = a + (j + 1) by omega]
          exact hfree)
      rw [hres, show a + 1 + j = a + (j + 1) by omega]

/-- Claim C1 (amended): the `short.js` generator retries on every collision
and never returns a code present in the registry, but it increases the code
length by one character after *each* collision (the `j`-th attempt is
generated at `length + j`), not only after 10 consecutive ones, and it
fails with the capacity error as soon as 10 collisions have occurred; the
`short1.js` variant likewise never returns a taken code, never changes the
length at all, and throws its capacity error once nine candidates in a row
were taken. -/
theorem generateShortCode_amended (gen : Nat → Nat → JsStr)
    (registry : List JsStr) (len : Nat) (taken : JsStr → Bool) :
    (∀ code, generateShortCode gen registry len = Except.ok code →
      code ∉ registry) ∧
    ((∀ i, i < 10 → gen i (len + i) ∈ registry) →
      generateShortCode gen registry len
        = Except.error (js "Unable to generate unique short code")) ∧
    (∀ j, j < 10 → (∀ i, i < j → gen i (len + i) ∈ registry) →
      gen j (len + j) ∉ registry →
      generateShortCode gen registry len = Except.ok (gen j (len + j))) ∧
    (∀ code, generateShortCode1 gen taken len = Except.ok code →
      taken code = false) ∧
    ((∀ i, i < 9 → taken (gen i len) = true) →
      generateShortCode1 gen taken len
        = Except.error (js "Failed to generate unique short code")) ∧
    (∀ j, j < 9 → (∀ i, i < j → taken (gen i len) = true) →
      taken (gen j len) = false →
      generateShortCode1 gen taken len = Except.ok (gen j len)) := by
  refine ⟨?_, ?_, ?_, ?_, ?_, ?_⟩
  · exact fun code h => generateShortCodeLoop_ok_not_mem gen registry 10 0 len code h
  · intro hall
    exact generateShortCodeLoop_error gen registry 10 0 len rfl
      (fun i hi => by simpa using hall i hi)
  · intro j hj hcoll hfree
    have := generateShortCodeLoop_ok_at gen registry 10 0 len j rfl hj
      (fun i hi => by simpa using hcoll i hi) (by simpa using hfree)
    simpa using this
  · exact fun code h => generateShortCodeLoop1_ok_not_taken gen taken len 9 0 code h
  · intro hall
    exact generateShortCodeLoop1_error gen taken len 9 0
      (fun i hi => by simpa using hall i hi)
  · intro j hj hcoll hfree
    have := generateShortCodeLoop1_ok_at gen taken len 9 0 j hj
      (fun i hi => by simpa using hcoll i hi) (by simpa using hfree)
    simpa using this

/-- A concrete `nanoid` oracle: attempt 0 yields all-`a`, later attempts
all-`b`, always at the requested length. -/
def genAB : Nat → Nat → JsStr := fun j len =>
  if j = 0 then List.replicate len 'a' else List.replicate len 'b'

/-- Claim C1 counterexample: the claim implies that after a single
collision the retry is generated at the *same* length (the length grows
only after 10 consecutive collisions).  With the registry `["aaaaaa"]` and
an oracle whose attempt 0 collides and attempt 1 does not, the code would
then return the attempt-1 code of length 6; the implementation instead
retries attempt 1 already at length 7 and returns `"bbbbbbb"`. -/
theorem generateShortCode_claimed_length_policy_false :
    ¬ (∀ (gen : Nat → Nat → JsStr) (registry : List JsStr) (len : Nat),
        gen 0 len ∈ registry → gen 1 len ∉ registry →
        generateShortCode gen registry len = Except.ok (gen 1 len)) := by
  intro h
  have h1 := h genAB [js "aaaaaa"] 6 (by decide) (by decide)
  have h2 : generateShortCode genAB [js "aaaaaa"] 6
      = Except.ok (js "bbbbbbb") := by decide
  rw [h2] at h1
  have h3 : genAB 1 6 = js "bbbbbb" := by decide
  rw [h3] at h1
  exact absurd h1 (by decide)

/-- Witness for the amended C1 theorem at concrete inputs: one collision
forces a length-7 retry in `short.js`, and the `short1.js` variant succeeds
at the unchanged default length after a collision. -/
theorem generateShortCode_amended_witness :
    generateShortCode genAB [js "aaaaaa"] 6 = Except.ok (genAB 1 (6 + 1)) ∧
    generateShortCode1 genAB (fun c => c == js "aaaaaaaa") 8
      = Except.ok (genAB 1 8) := by
  constructor
  · exact (generateShortCode_amended genAB [js "aaaaaa"] 6
      (fun c => c == js "aaaaaaaa")).2.2.1 1 (by decide)
      (fun i hi => by
        have h0 : i = 0 := by omega
        subst h0
        decide)
      (by decide)
  · exact (generateShortCode_amended genAB [js "aaaaaa"] 8
      (fun c => c == js "aaaaaaaa")).2.2.2.2.2 1 (by decide)
      (fun i hi => by
        have h0 : i = 0 := by omega
        subst h0
        decide)
      (by decide)

/-! ## C2: redirect resolution semantics -/

/-- Claim C2: with no active link matching the code (in particular when
every matching link is inactive) the resolver answers 404 with the store
untouched, regardless of expiration; an active match whose expiration lies
in the past answers 410 with the store untouched (no click recorded, no
redirect); an active, unexpired match is answered with the 301 to the
stored destination (shown for the legacy controller on the failure-free
path and for the refactored controller under any failure state). -/
theorem redirectUrl_resolution (db : DB) (now : Int) (code : JsStr)
    (req : Request) (f : FailState) :
    (findActiveUrl db.urls code = none →
      redirectUrl db now code req f = (RedirectResp.notFound, db)) ∧
    ((∀ l ∈ db.urls, (l.shortCode = code ∨ l.customAlias = some code) →
        l.isActive = false) →
      redirectUrl db now code req f = (RedirectResp.notFound, db)) ∧
    (∀ url, findActiveUrl db.urls code = some url → isExpired now url = true →
      redirectUrl db now code req f = (RedirectResp.gone, db) ∧
      redirectUrlRefactored db now code req f = (RedirectResp.gone, db)) ∧
    (∀ url, findActiveUrl db.urls code = some url → isExpired now url = false →
      (redirectUrl db now code req noFail).1
        = RedirectResp.movedPermanently url.originalUrl ∧
      (redirectUrlRefactored db now code req f).1
        = RedirectResp.movedPermanently url.originalUrl) := by
  refine ⟨?_, ?_, ?_, ?_⟩
  · intro h
    simp [redirectUrl, h]
  · intro h
    have hnone : findActiveUrl db.urls code = none := by
      rw [findActiveUrl, List.find?_eq_none]
      intro l hl hp
      simp only [Bool.and_eq_true, Bool.or_eq_true, decide_eq_true_eq] at hp
      obtain ⟨hm, ha⟩ := hp
      rw [h l hl hm] at ha
      exact Bool.false_ne_true ha
    simp [redirectUrl, hnone]
  · intro url hfind hexp
    constructor
    · simp [redirectUrl, hfind, hexp]
    · simp [redirectUrlRefactored, hfind, hexp]
  · intro url hfind hexp
    constructor
    · by_cases hb : isBot (jsOrStr req.userAgentHeader []) = true
      · simp [redirectUrl, hfind, hexp, hb]
      · cases hu : url.user with
        | none => simp [redirectUrl, hfind, hexp, hb, hu, noFail]
        | some uid => simp [redirectUrl, hfind, hexp, hb, hu, noFail]
    · simp [redirectUrlRefactored, hfind, hexp]

/-- An active, unexpired demo link owned by user 7. -/
def exLink : Link :=
  { id := 1
    originalUrl := js "https://example.com/page"
    shortCode := js "abc123"
    customAlias := none
    user := some 7
    title := js "example.com"
    description := none
    tags := []
    isActive := true
    expiresAt := some 1000
    clicks := 2
    lastClickedAt := none
    }

/-- An inactive link and an expired link sharing the demo store. -/
def exLinkInactive : Link :=
  { exLink with id := 2, shortCode := js "off123", isActive := false }

/-- The expired demo link (expiry 1000 lies before `now = 500` only for
the inactive checks; a separate link expiring at 100 serves the 410 case). -/
def exLinkExpired : Link :=
  { exLink with id := 3, shortCode := js "old123", expiresAt := some 100 }

/-- The demo owner record. -/
def exUser : UserRec := { id := 7, urlsCount := 3, totalClicks := 40 }

/-- The demo database. -/
def exDB : DB :=
  { urls := [exLink, exLinkInactive, exLinkExpired]
    clicks := []
    users := [exUser] }

/-- A plain browser request (no forwarding headers, Chrome on Windows). -/
def exReq : Request :=
  { userAgentHeader := some (js "Mozilla/5.0 (Windows NT 10.0) Chrome/120.0")
    refererHeader := none
    referrerHeader := none
    xForwardedFor := none
    xRealIP := none
    cfConnectingIP := none
    remoteAddress := some (js "203.0.113.9")
    user := none }

/-- Witness for C2 at `now = 500`: an unknown code and the inactive link's
code both answer 404, the expired link answers 410 leaving the store
unchanged, and the live link is answered with its 301. -/
theorem redirectUrl_resolution_witness :
    redirectUrl exDB 500 (js "nosuch") exReq noFail = (RedirectResp.notFound, exDB) ∧
    redirectUrl exDB 500 (js "off123") exReq noFail = (RedirectResp.notFound, exDB) ∧
    redirectUrl exDB 500 (js "old123") exReq noFail = (RedirectResp.gone, exDB) ∧
    (redirectUrl exDB 500 (js "abc123") exReq noFail).1
      = RedirectResp.movedPermanently (js "https://example.com/page") := by
  refine ⟨?_, ?_, ?_, ?_⟩
  · exact (redirectUrl_resolution exDB 500 (js "nosuch") exReq noFail).1 (by decide)
  · exact (redirectUrl_resolution exDB 500 (js "off123") exReq noFail).2.1
      (by decide)
  · exact ((redirectUrl_resolution exDB 500 (js "old123") exReq noFail).2.2.1
      exLinkExpired (by decide) (by decide)).1
  · exact ((redirectUrl_resolution exDB 500 (js "abc123") exReq noFail).2.2.2
      exLink (by decide) (by decide)).1

/-! ## C5: bot traffic is redirected but never recorded -/

/-- Claim C5: when the request's user agent (header, or `''` when absent)
satisfies `isBot`, both redirect controllers answer with the 301 to the
destination while leaving the database — Click collection, link counters,
last-clicked stamp, and owner aggregates — completely unchanged. -/
theorem redirectUrl_skips_bots (db : DB) (now : Int) (code : JsStr)
    (req : Request) (f : FailState) (url : Link) :
    isBot (jsOrStr req.userAgentHeader []) = true →
    findActiveUrl db.urls code = some url →
    isExpired now url = false →
    redirectUrl db now code req f
      = (RedirectResp.movedPermanently url.originalUrl, db) ∧
    redirectUrlRefactored db now code req f
      = (RedirectResp.movedPermanently url.originalUrl, db) := by
  intro hb hfind hexp
  constructor
  · simp [redirectUrl, hfind, hexp, hb]
  · simp [redirectUrlRefactored, trackClick, hfind, hexp, hb]

/-- A crawler's request. -/
def exReqBot : Request := { exReq with userAgentHeader := some (js "Googlebot/2.1") }

/-- Witness for C5: Googlebot gets the 301 and the store stays untouched. -/
theorem redirectUrl_skips_bots_witness :
    redirectUrl exDB 500 (js "abc123") exReqBot noFail
      = (RedirectResp.movedPermanently (js "https://example.com/page"), exDB) ∧
    redirectUrlRefactored exDB 500 (js "abc123") exReqBot noFail
      = (RedirectResp.movedPermanently (js "https://example.com/page"), exDB) :=
  redirectUrl_skips_bots exDB 500 (js "abc123") exReqBot noFail exLink
    (by decide) (by decide) (by decide)

/-! ## C9: a missing user agent is not bot traffic -/

/-- Claim C9: `isBot` of the empty (falsy) user agent is `false`, so a
redirect request without a User-Agent header follows the recording path:
it gets the 301, a Click document is appended, and the link's counter and
last-clicked stamp are updated. -/
theorem redirect_empty_userAgent_records_click (db : DB) (now : Int)
    (code : JsStr) (req : Request) (url : Link) :
    isBot [] = false ∧
    (req.userAgentHeader = none →
     findActiveUrl db.urls code = some url →
     isExpired now url = false →
     (redirectUrl db now code req noFail).1
        = RedirectResp.movedPermanently url.originalUrl ∧
     (redirectUrl db now code req noFail).2.clicks
        = db.clicks ++ [buildClick url req now] ∧
     (redirectUrl db now code req noFail).2.urls
        = updateLink db.urls (incrementClicks now url)) := by
  constructor
  · decide
  · intro hua hfind hexp
    have hb : isBot (jsOrStr req.userAgentHeader []) = false := by
      rw [hua]
      decide
    cases hu : url.user with
    | none =>
      refine ⟨?_, ?_, ?_⟩ <;> simp [redirectUrl, hfind, hexp, hb, hu, noFail]
    | some uid =>
      refine ⟨?_, ?_, ?_⟩ <;> simp [redirectUrl, hfind, hexp, hb, hu, noFail]

/-- A request carrying no User-Agent header at all. -/
def exReqNoUA : Request := { exReq with userAgentHeader := none }

/-- Witness for C9: the header-less request is redirected and recorded. -/
theorem redirect_empty_userAgent_records_click_witness :
    isBot [] = false ∧
    (redirectUrl exDB 500 (js "abc123") exReqNoUA noFail).1
      = RedirectResp.movedPermanently (js "https://example.com/page") ∧
    (redirectUrl exDB 500 (js "abc123") exReqNoUA noFail).2.clicks
      = exDB.clicks ++ [buildClick exLink exReqNoUA 500] ∧
    (redirectUrl exDB 500 (js "abc123") exReqNoUA noFail).2.urls
      = updateLink exDB.urls (incrementClicks 500 exLink) := by
  have h := redirect_empty_userAgent_records_click exDB 500 (js "abc123")
    exReqNoUA exLink
  exact ⟨h.1, h.2 rfl (by decide) (by decide)⟩

/-! ## C3: error handling of the click-recording path -/

/-- Claim C3 counterexample: in the legacy controller
(`url.controller.js`), a rejected `Click.create` during a valid, non-bot,
non-expired redirect turns the response into an error instead of the 301 —
the click-persistence error surfaces to the redirect response, because the
handler awaits it. -/
theorem clickRecording_error_surfaces :
    (redirectUrl exDB 500 (js "abc123") exReq ⟨false, true, false, false⟩).1
      = RedirectResp.serverError ∧
    (redirectUrl exDB 500 (js "abc123") exReq noFail).1
      = RedirectResp.movedPermanently (js "https://example.com/page") := by
  constructor
  · decide
  · decide

/-- Claim C3 (amended): only the refactored controller (`part_000`)
decouples click recording from the response — there the 301 is issued
whatever subset of the recording steps fails; in the legacy controller
(`url.controller.js`) the resolver awaits click persistence, and a
rejected `Click.create` escapes to the error middleware instead of the
redirect. -/
theorem clickRecording_decoupling (db : DB) (now : Int) (code : JsStr)
    (req : Request) (f : FailState) (url : Link) :
    findActiveUrl db.urls code = some url →
    isExpired now url = false →
    ((redirectUrlRefactored db now code req f).1
        = RedirectResp.movedPermanently url.originalUrl) ∧
    (isBot (jsOrStr req.userAgentHeader []) = false →
      f.geoFails = false → f.clickCreateFails = true →
      (redirectUrl db now code req f).1 = RedirectResp.serverError) := by
  intro hfind hexp
  constructor
  · simp [redirectUrlRefactored, hfind, hexp]
  · intro hb hg hc
    simp [redirectUrl, hfind, hexp, hb, hg, hc]

/-- Witness for the amended C3 theorem: with a failing `Click.create`, the
refactored controller still redirects while the legacy one errors. -/
theorem clickRecording_decoupling_witness :
    (redirectUrlRefactored exDB 500 (js "abc123") exReq
        ⟨false, true, false, false⟩).1
      = RedirectResp.movedPermanently (js "https://example.com/page") ∧
    (redirectUrl exDB 500 (js "abc123") exReq ⟨false, true, false, false⟩).1
      = RedirectResp.serverError := by
  have h := clickRecording_decoupling exDB 500 (js "abc123") exReq
    ⟨false, true, false, false⟩ exLink (by decide) (by decide)
  exact ⟨h.1, h.2 (by decide) rfl rfl⟩

/-! ## C4: deletion effects and (non-)atomicity -/

/-- A recorded click on the demo link. -/
def exClick4 : Click :=
  { url := 1
    user := none
    ipAddress := js "1.1.1.1"
    userAgent := js "x"
    referer := none
    country := js "US"
    city := js "A"
    browser := ⟨js "Chrome", js "1"⟩
    os := ⟨js "Windows", js "10"⟩
    device := ⟨js "desktop", js "Unknown", js "Unknown"⟩
    timestamp := 10 }

/-- Demo store for the deletion claims: user 7 owns link 1 (click counter
2) and one Click document references it. -/
def exDB4 : DB := { urls := [exLink], clicks := [exClick4], users := [exUser] }

/-- Claim C4 counterexample: with the link-deletion write failing after
the click-deletion write succeeded, `deleteUrl` leaves a state that is
neither the original one (the Click documents are gone) nor the fully
deleted one (the link and the owner's counters are untouched) — the three
effects are not all-or-none. -/
theorem deleteUrl_not_atomic :
    (deleteUrl exDB4 7 1 ⟨false, true, false⟩).1 = DeleteResp.serverError ∧
    (deleteUrl exDB4 7 1 ⟨false, true, false⟩).2 ≠ exDB4 ∧
    exLink ∈ (deleteUrl exDB4 7 1 ⟨false, true, false⟩).2.urls ∧
    (deleteUrl exDB4 7 1 ⟨false, true, false⟩).2.users = [exUser] := by
  refine ⟨by decide, by decide, by decide, by decide⟩

/-- Claim C4 (amended): an owner's deletion performs the three documented
effects — every Click referencing the link is removed, the link is
removed, and the owner's aggregates are decremented by 1 and by the link's
click counter — when all three writes succeed (shown for the sequential
legacy controller, whose success state coincides with the `Promise.all`
refactored one); but the writes are not a transaction: when one write
fails, the completed writes' effects persist (state is not left
unchanged on error). -/
theorem deleteUrl_effects (db : DB) (reqUser urlId : Nat) (url : Link) :
    db.urls.find? (fun l => l.id = urlId && l.user = some reqUser) = some url →
    (deleteUrl db reqUser urlId noDeleteFail).1 = DeleteResp.ok ∧
    (deleteUrl db reqUser urlId noDeleteFail).2.clicks
      = db.clicks.filter (fun c => ¬ c.url = url.id) ∧
    (∀ c ∈ (deleteUrl db reqUser urlId noDeleteFail).2.clicks, ¬ c.url = url.id) ∧
    (deleteUrl db reqUser urlId noDeleteFail).2.urls
      = db.urls.filter (fun l => ¬ l.id = url.id) ∧
    (deleteUrl db reqUser urlId noDeleteFail).2.users
      = incUserCounters db.users reqUser (-1) (-url.clicks) ∧
    deleteUrlRefactored db reqUser urlId noDeleteFail
      = deleteUrl db reqUser urlId noDeleteFail ∧
    (deleteUrl db reqUser urlId ⟨false, true, false⟩).2.urls = db.urls ∧
    (deleteUrl db reqUser urlId ⟨false, true, false⟩).2.clicks
      = db.clicks.filter (fun c => ¬ c.url = url.id) := by
  intro hfind
  refine ⟨?_, ?_, ?_, ?_, ?_, ?_, ?_, ?_⟩
  · simp [deleteUrl, hfind, noDeleteFail]
  · simp [deleteUrl, hfind, noDeleteFail]
  · intro c hc
    simp [deleteUrl, hfind, noDeleteFail, List.mem_filter] at hc
    simpa using hc.2
  · simp [deleteUrl, hfind, noDeleteFail]
  · simp [deleteUrl, hfind, noDeleteFail]
  · simp [deleteUrl, deleteUrlRefactored, hfind, noDeleteFail]
  · simp [deleteUrl, hfind]
  · simp [deleteUrl, hfind]

/-- Witness for the amended C4 theorem: deleting link 1 removes its Click,
removes the link, and moves the owner from (3 links, 40 clicks) to
(2 links, 38 clicks) — a decrement by exactly the link's click counter 2. -/
theorem deleteUrl_effects_witness :
    (deleteUrl exDB4 7 1 noDeleteFail).1 = DeleteResp.ok ∧
    (deleteUrl exDB4 7 1 noDeleteFail).2.clicks = [] ∧
    (deleteUrl exDB4 7 1 noDeleteFail).2.urls = [] ∧
    (deleteUrl exDB4 7 1 noDeleteFail).2.users
      = [{ id := 7, urlsCount := 2, totalClicks := 38 }] := by
  have h := deleteUrl_effects exDB4 7 1 exLink (by decide)
  refine ⟨h.1, ?_, ?_, ?_⟩
  · rw [h.2.1]; decide
  · rw [h.2.2.2.1]; decide
  · rw [h.2.2.2.2.1]; decide

/-! ## C6: idempotent create for authenticated owners only -/

/-- Claim C6: for an authenticated caller whose normalized destination
equals the stored destination of one of their own links, `createShortUrl`
answers with that existing link and leaves the store unchanged — no new
document, no code allocation; an anonymous caller never reaches the dedup
branch: a fresh link is appended (with a newly generated code) even when a
link with the same normalized destination already exists. -/
theorem createShortUrl_dedup (db : DB) (now : Int) (env : CreateEnv)
    (uid : Nat) (body : CreateBody) (L : Link) :
    (jsTruthy body.originalUrl = true →
     env.isValidUrl (normalizeUrl (jsTrim (body.originalUrl.getD []))) = true →
     jsTruthy body.customAlias = false →
     db.urls.find? (fun l =>
         l.originalUrl = normalizeUrl (jsTrim (body.originalUrl.getD []))
           && l.user = some uid) = some L →
     createShortUrl db now env (some uid) body
       = (CreateResp.okExisting L, db)) ∧
    (jsTruthy body.originalUrl = true →
     env.isValidUrl (normalizeUrl (jsTrim (body.originalUrl.getD []))) = true →
     jsTruthy body.customAlias = false →
     body.expiresAt = none →
     ∀ c, generateShortCode env.gen (db.urls.map (·.shortCode)) = Except.ok c →
     ∃ newUrl, createShortUrl db now env none body
         = (CreateResp.created newUrl, { db with urls := db.urls ++ [newUrl] })
       ∧ newUrl.shortCode = c) := by
  constructor
  · intro ho hv ha hfind
    simp [createShortUrl, ho, hv, ha, hfind]
  · intro ho hv ha he c hc
    refine ⟨{ id := env.freshId
              originalUrl := normalizeUrl (jsTrim (body.originalUrl.getD []))
              shortCode := c
              customAlias := none
              user := none
              title := if jsTruthy body.title then jsTrim (body.title.getD [])
                       else env.extractDomain
                         (normalizeUrl (jsTrim (body.originalUrl.getD [])))
              description := if jsTruthy body.description
                             then some (jsTrim (body.description.getD []))
                             else none
              tags := ((body.tags.getD []).map jsTrim).filter (· ≠ [])
              isActive := true
              expiresAt := none
              clicks := 0
              lastClickedAt := none }, ?_, rfl⟩
    simp [createShortUrl, ho, hv, ha, he, hc]

/-- The oracles for the create witness: every URL is considered valid by
the platform parser, domains resolve to `example.com`, randomness is the
`genAB` oracle, and the store assigns id 99. -/
def exEnv : CreateEnv :=
  { isValidUrl := fun _ => true
    extractDomain := fun _ => js "example.com"
    gen := genAB
    freshId := 99 }

/-- A create request for the destination user 7 already shortened. -/
def exBody : CreateBody :=
  { originalUrl := some (js "https://example.com/page")
    customAlias := none
    title := none
    description := none
    tags := none
    expiresAt := none }

/-- Witness for C6: user 7 re-shortening their stored destination gets the
existing link back with the store unchanged, while the same request made
anonymously appends a fresh link with a newly allocated code. -/
theorem createShortUrl_dedup_witness :
    createShortUrl exDB 500 exEnv (some 7) exBody
      = (CreateResp.okExisting exLink, exDB) ∧
    (∃ newUrl, createShortUrl exDB 500 exEnv none exBody
        = (CreateResp.created newUrl, { exDB with urls := exDB.urls ++ [newUrl] })
      ∧ newUrl.shortCode = js "aaaaaa") := by
  constructor
  · exact (createShortUrl_dedup exDB 500 exEnv 7 exBody exLink).1
      (by decide) (by decide) rfl (by decide)
  · exact (createShortUrl_dedup exDB 500 exEnv 7 exBody exLink).2
      (by decide) (by decide) rfl rfl (js "aaaaaa") (by decide)

/-! ## C7: the country breakdown and click total -/

/-- A click on link 1 from the given country (fixed enrichment fields). -/
def mkClick (country : JsStr) (ts : Int) : Click :=
  { url := 1
    user := none
    ipAddress := js "1.2.3.4"
    userAgent := js ""
    referer := none
    country := country
    city := js "X"
    browser := ⟨js "Chrome", js "1"⟩
    os := ⟨js "Windows", js "10"⟩
    device := ⟨js "desktop", js "Unknown", js "Unknown"⟩
    timestamp := ts }

/-- The spec's worked example: 7 US clicks, 3 DE clicks, 1 Unknown click,
all on link 1 inside the window. -/
def exampleClicks : List Click :=
  List.replicate 7 (mkClick (js "US") 1) ++ List.replicate 3 (mkClick (js "DE") 2)
    ++ [mkClick (js "Unknown") 3]

/-- Claim C7: `summary.totalClicks` counts exactly the link's Click events
inside `[start, end]`; every row of `clicksByCountry` carries the count of
exactly the window's events with that country; every country occurring in
the window appears in the sorted group rows (before the `$limit`); the
published breakdown is sorted descending by count, has at most 10 rows,
and lists pairwise-distinct countries; and the spec's worked example
`{US: 7, DE: 3, Unknown: 1}` yields `[(US,7),(DE,3),(Unknown,1)]` with
`totalClicks = 11`. -/
theorem getUrlAnalytics_country (clicks : List Click) (urlId : Nat)
    (start endT : Int) :
    summaryTotalClicks clicks urlId start endT
      = clicks.countP
          (fun c => c.url = urlId && (start ≤ c.timestamp && c.timestamp ≤ endT)) ∧
    (∀ p ∈ clicksByCountry clicks urlId start endT,
      p.2 = ((matchWindow clicks urlId start endT).map (·.country)).count p.1) ∧
    (∀ k, k ∈ (matchWindow clicks urlId start endT).map (·.country) →
      (k, ((matchWindow clicks urlId start endT).map (·.country)).count k)
        ∈ sortByClicksDesc
            (groupCountBy (matchWindow clicks urlId start endT) (·.country))) ∧
    List.Sorted clicksDescRel (clicksByCountry clicks urlId start endT) ∧
    (clicksByCountry clicks urlId start endT).length ≤ 10 ∧
    ((clicksByCountry clicks urlId start endT).map Prod.fst).Nodup ∧
    clicksByCountry exampleClicks 1 0 100
      = [(js "US", 7), (js "DE", 3), (js "Unknown", 1)] ∧
    summaryTotalClicks exampleClicks 1 0 100 = 11 := by
  refine ⟨?_, ?_, ?_, ?_, ?_, ?_, ?_, ?_⟩
  · rw [summaryTotalClicks, matchWindow, ← List.countP_eq_length_filter]
  · intro p hp
    have hp1 : p ∈ sortByClicksDesc
        (groupCountBy (matchWindow clicks urlId start endT) (·.country)) :=
      List.mem_of_mem_take hp
    have hp2 : p ∈ groupCountBy (matchWindow clicks urlId start endT) (·.country) :=
      (List.perm_insertionSort clicksDescRel _).mem_iff.mp hp1
    obtain ⟨k, hk, rfl⟩ := List.mem_map.mp hp2
    rfl
  · intro k hk
    apply (List.perm_insertionSort clicksDescRel _).mem_iff.mpr
    exact List.mem_map.mpr ⟨k, List.mem_dedup.mpr hk, rfl⟩
  · exact List.Pairwise.sublist (List.take_sublist _ _)
      (List.sorted_insertionSort clicksDescRel _)
  · exact List.length_take_le _ _
  · have hmap : (groupCountBy (matchWindow clicks urlId start endT)
        (·.country)).map Prod.fst
        = ((matchWindow clicks urlId start endT).map (·.country)).dedup := by
      simp [groupCountBy, Function.comp_def]
    have hperm : List.Perm
        ((sortByClicksDesc (groupCountBy
          (matchWindow clicks urlId start endT) (·.country))).map Prod.fst)
        ((groupCountBy (matchWindow clicks urlId start endT)
            (·.country)).map Prod.fst) :=
      (List.perm_insertionSort clicksDescRel _).map _
    have hnd : ((sortByClicksDesc (groupCountBy
        (matchWindow clicks urlId start endT) (·.country))).map Prod.fst).Nodup :=
      hperm.nodup_iff.mpr (hmap ▸ List.nodup_dedup _)
    rw [clicksByCountry, List.map_take]
    exact hnd.sublist (List.take_sublist _ _)
  · decide
  · decide

/-- Witness for C7 on the worked example: the breakdown and total are as
the spec states, and the theorem's row property holds at the `(US, 7)`
row. -/
theorem getUrlAnalytics_country_witness :
    clicksByCountry exampleClicks 1 0 100
      = [(js "US", 7), (js "DE", 3), (js "Unknown", 1)] ∧
    summaryTotalClicks exampleClicks 1 0 100 = 11 ∧
    (js "US", 7).2
      = ((matchWindow exampleClicks 1 0 100).map (·.country)).count (js "US", 7).1 := by
  have h := getUrlAnalytics_country exampleClicks 1 0 100
  exact ⟨h.2.2.2.2.2.2.1, h.2.2.2.2.2.2.2,
    h.2.1 (js "US", 7) (by decide)⟩

/-! ## C8: Unknown placeholders in the chart dimensions -/

/-- Claim C8: in the rendered charts of `getUrlAnalytics` (part_000), an
aggregation row whose grouped dimension value is absent (`_id: null`) or
empty renders under the placeholder `"Unknown"` in the country, browser
and OS dimensions, and under `"desktop"` in the device dimension, while a
present non-empty value renders as itself; upstream, an unrecognized user
agent is parsed to the literal `'Unknown'` browser/OS names and the mock
geolocation of a public address is the literal `'Unknown'` country, so
unmapped dimensions reach the charts as the explicit placeholder. -/
theorem analytics_unknown_placeholders (rows : List (Option JsStr × Nat)) :
    (∀ n, ((none : Option JsStr), n) ∈ rows →
      (js "Unknown", n) ∈ renderCountryChart rows ∧
      (js "Unknown", n) ∈ renderBrowserChart rows ∧
      (js "Unknown", n) ∈ renderOSChart rows ∧
      (js "desktop", n) ∈ renderDeviceChart rows) ∧
    (∀ n, (some ([] : JsStr), n) ∈ rows →
      (js "Unknown", n) ∈ renderCountryChart rows ∧
      (js "desktop", n) ∈ renderDeviceChart rows) ∧
    (∀ s n, s ≠ [] → (some s, n) ∈ rows → (s, n) ∈ renderCountryChart rows) ∧
    (parseUserAgent (js "FooAgent/1.0")).browser.name = js "Unknown" ∧
    (parseUserAgent (js "FooAgent/1.0")).os.name = js "Unknown" ∧
    (getGeolocation (js "8.8.8.8")).country = js "Unknown" := by
  refine ⟨?_, ?_, ?_, by decide, by decide, by decide⟩
  · intro n hn
    refine ⟨?_, ?_, ?_, ?_⟩ <;>
      exact List.mem_map.mpr ⟨(none, n), hn, rfl⟩
  · intro n hn
    constructor <;>
      exact List.mem_map.mpr ⟨(some [], n), hn, by simp [jsOrStr]⟩
  · intro s n hs hn
    have hv : jsOrStr (some s) (js "Unknown") = s := by simp [jsOrStr, hs]
    exact List.mem_map.mpr ⟨(some s, n), hn, by simp [hv]⟩

/-- Demo aggregation rows: a null-keyed row, an empty-keyed row, and a
mapped row. -/
def exRows : List (Option JsStr × Nat) := [(none, 5), (some [], 2), (some (js "US"), 7)]

/-- Witness for C8 on the demo rows. -/
theorem analytics_unknown_placeholders_witness :
    (js "Unknown", 5) ∈ renderCountryChart exRows ∧
    (js "desktop", 5) ∈ renderDeviceChart exRows ∧
    (js "Unknown", 2) ∈ renderCountryChart exRows ∧
    (js "US", 7) ∈ renderCountryChart exRows ∧
    (parseUserAgent (js "FooAgent/1.0")).browser.name = js "Unknown" := by
  have h := analytics_unknown_placeholders exRows
  exact ⟨(h.1 5 (by decide)).1, (h.1 5 (by decide)).2.2.2,
    (h.2.1 2 (by decide)).1, h.2.2.1 (js "US") 7 (by decide) (by decide),
    h.2.2.2.1⟩
